import Mathlib

/-
Shallow embedding of the AI-Freelance-Operator project pipeline:
the dispatcher state machine (src/app/workflow/dispatcher.py), the workflow
engine (src/app/workflow/engine.py), the stage-handler agents
(src/app/agents/), the mail intake worker (src/background/mail_worker.py),
the outbound drain (src/app/email_sender.py), the freelancer inbox adapter
(src/app/freelancer_inbox.py) and the admin routes (src/app/routes.py).

States are modelled as strings, as in the Python source.  External
collaborators (AI completion, SMTP, IMAP) appear as oracle parameters; a
failing AI call is a Boolean flag, successful AI output appears as the
parsed fields a handler actually reads.  Money amounts and scores are
rationals.  The database works (no store-unavailability branch): every
surviving cursor.execute takes effect and the exception paths modelled are
those the handlers branch on themselves.
-/

namespace FreelanceOperator

/-- The agent classes of src/app/agents, one constructor per class. -/
inductive Agent
  | emailParser
  | scamFilter
  | classification
  | estimation
  | offerGenerator
  | dialogueOrchestrator
  | requirementsAnalysis
  | intake
  deriving DecidableEq, Repr

/-- One value of the STATE_MACHINE dict in src/app/workflow/dispatcher.py:
the optional agent class and the optional default next state. -/
structure SMEntry where
  agent : Option Agent
  next : Option String
  deriving DecidableEq, Repr

/-- STATE_MACHINE from src/app/workflow/dispatcher.py lines 14-27,
keys in source order. -/
def STATE_MACHINE : List (String × SMEntry) :=
  [ ("NEW",              ⟨some .emailParser,          some "PARSED"⟩),
    ("PARSED",           ⟨some .scamFilter,           some "ANALYZED"⟩),
    ("ANALYZED",         ⟨some .classification,       some "CLASSIFIED"⟩),
    ("CLASSIFIED",       ⟨some .estimation,           some "ESTIMATION_READY"⟩),
    ("ESTIMATION_READY", ⟨some .offerGenerator,       some "OFFER_SENT"⟩),
    ("OFFER_SENT",       ⟨none,                       some "NEGOTIATION"⟩),
    ("NEGOTIATION",      ⟨some .dialogueOrchestrator, some "AGREED"⟩),
    ("AGREED",           ⟨none,                       some "FUNDED"⟩),
    ("FUNDED",           ⟨none,                       some "EXECUTION_READY"⟩),
    ("EXECUTION_READY",  ⟨none,                       some "CLOSED"⟩),
    ("CLOSED",           ⟨none,                       none⟩),
    ("REJECTED",         ⟨none,                       none⟩) ]

/-- ALL_STATES = list(STATE_MACHINE.keys()). -/
def ALL_STATES : List String := STATE_MACHINE.map Prod.fst

/-- TERMINAL_STATES: states whose next is None. -/
def TERMINAL_STATES : List String :=
  (STATE_MACHINE.filter (fun p => p.2.next.isNone)).map Prod.fst

/-- AUTO_STATES: states whose agent is not None. -/
def AUTO_STATES : List String :=
  (STATE_MACHINE.filter (fun p => p.2.agent.isSome)).map Prod.fst

/-- MANUAL_STATES: no agent but a next state. -/
def MANUAL_STATES : List String :=
  (STATE_MACHINE.filter (fun p => p.2.agent.isNone && p.2.next.isSome)).map Prod.fst

/-- The self.agents dict built in WorkflowEngine.__init__
(src/app/workflow/engine.py lines 39-46): state name to agent instance. -/
def engineAgents : List (String × Agent) :=
  [ ("NEW",              .emailParser),
    ("PARSED",           .scamFilter),
    ("ANALYZED",         .classification),
    ("CLASSIFIED",       .estimation),
    ("ESTIMATION_READY", .offerGenerator),
    ("NEGOTIATION",      .dialogueOrchestrator) ]

/-- One row of the project_states transition log (BaseAgent.log_state_transition
and the direct INSERT INTO project_states sites). -/
structure Transition where
  projectId : Nat
  fromState : Option String
  toState : String
  changedBy : String
  reason : String
  deriving DecidableEq, Repr

/-- C1: the claim says the state machine contains CLARIFICATION_NEEDED and
REQUIREMENTS_ANALYZED, assigns the Requirements Analysis handler to CLASSIFIED
and the Estimation handler to REQUIREMENTS_ANALYZED.  Evaluating the source
tables at those keys: CLASSIFIED maps directly to the Estimation agent in both
the dispatcher STATE_MACHINE and the engine agents dict, and neither
CLARIFICATION_NEEDED nor REQUIREMENTS_ANALYZED is a key of STATE_MACHINE, so a
project in CLASSIFIED is dispatched straight to the Estimation handler. -/
theorem classified_dispatches_to_estimation :
    STATE_MACHINE.lookup "CLASSIFIED" = some ⟨some .estimation, some "ESTIMATION_READY"⟩ ∧
    STATE_MACHINE.lookup "CLARIFICATION_NEEDED" = none ∧
    STATE_MACHINE.lookup "REQUIREMENTS_ANALYZED" = none ∧
    engineAgents.lookup "CLASSIFIED" = some .estimation ∧
    engineAgents.lookup "CLARIFICATION_NEEDED" = none ∧
    (STATE_MACHINE.lookup "CLASSIFIED").map SMEntry.agent ≠ some (some .requirementsAnalysis) := by
  refine ⟨rfl, rfl, rfl, rfl, rfl, ?_⟩
  decide

/-- Shared shape of a stage-handler invocation result: the returned state
(None = stay put) and the project_states rows the handler inserted during the
call (BaseAgent.log_state_transition). -/
structure AgentResult where
  newState : Option String
  logged : List Transition
  deriving DecidableEq, Repr

namespace EmailParserAgent

/-- EmailParserAgent.process (src/app/agents/email_parser_agent.py): both the
success path and the exception path log a NEW to PARSED transition and return
PARSED; only the reason text differs. -/
def process (pid : Nat) (aiFails : Bool) : AgentResult :=
  if aiFails then
    ⟨some "PARSED", [⟨pid, some "NEW", "PARSED", "email_parser_agent", "Email parse failed"⟩]⟩
  else
    ⟨some "PARSED", [⟨pid, some "NEW", "PARSED", "email_parser_agent", "Email parsed successfully"⟩]⟩

end EmailParserAgent

namespace ScamFilterAgent

/-- The inputs ScamFilterAgent.process branches on: whether the AI call raised,
and otherwise the parsed fields scam_score, is_scam, is_illegal. -/
structure Input where
  projectId : Nat
  aiFails : Bool
  scamScore : ℚ
  isScam : Bool
  isIllegal : Bool

/-- ScamFilterAgent.process (src/app/agents/scam_filter_agent.py lines 65-112):
reject when is_illegal or is_scam or scam_score >= scam_threshold, otherwise
pass to ANALYZED; on an AI failure let the project through to ANALYZED. -/
def process (scamThreshold : ℚ) (i : Input) : AgentResult :=
  if i.aiFails then
    ⟨some "ANALYZED",
     [⟨i.projectId, some "PARSED", "ANALYZED", "scam_filter_agent", "Scam filter error"⟩]⟩
  else if i.isIllegal = true ∨ i.isScam = true ∨ i.scamScore ≥ scamThreshold then
    ⟨some "REJECTED",
     [⟨i.projectId, some "PARSED", "REJECTED", "scam_filter_agent", "Scam score"⟩]⟩
  else
    ⟨some "ANALYZED",
     [⟨i.projectId, some "PARSED", "ANALYZED", "scam_filter_agent", "Scam score: passed filter"⟩]⟩

end ScamFilterAgent

namespace ClassificationAgent

/-- ClassificationAgent.process (src/app/agents/classification_agent.py): both
the success path and the exception path log ANALYZED to CLASSIFIED and return
CLASSIFIED (the fallback writes conservative defaults first). -/
def process (pid : Nat) (aiFails : Bool) : AgentResult :=
  if aiFails then
    ⟨some "CLASSIFIED",
     [⟨pid, some "ANALYZED", "CLASSIFIED", "classification_agent", "Classification failed - using defaults"⟩]⟩
  else
    ⟨some "CLASSIFIED",
     [⟨pid, some "ANALYZED", "CLASSIFIED", "classification_agent", "Complexity"⟩]⟩

end ClassificationAgent

namespace EstimationAgent

/-- The inputs EstimationAgent.process branches on: whether the project row was
found, whether the AI call raised, and otherwise the parsed numeric fields of
the AI result (None when the JSON key is absent). -/
structure Input where
  projectId : Nat
  projectFound : Bool
  aiFails : Bool
  totalWithBuffer : Option ℚ
  totalHours : Option ℚ
  quotedPriceAi : Option ℚ

/-- The fixed fallback default_hours = 20.0 of the except branch
(src/app/agents/estimation_agent.py line 137). -/
def defaultHours : ℚ := 20

/-- Result of EstimationAgent.process: the returned state, the
estimated_hours and quoted_price values written to the project row, and the
transition-log rows inserted. -/
structure Result where
  newState : Option String
  estimatedHours : Option ℚ
  quotedPrice : Option ℚ
  logged : List Transition
  deriving DecidableEq, Repr

/-- EstimationAgent.process (src/app/agents/estimation_agent.py lines 19-142):
on success write total_with_buffer (else total_hours, else 0) as
estimated_hours and quoted_price (else hours times rate); on an AI failure
write default_hours = 20.0 and 20.0 times the hourly rate.  Both paths log
REQUIREMENTS_ANALYZED to ESTIMATION_READY and return ESTIMATION_READY; a
missing project row returns None with no writes. -/
def process (hourlyRate : ℚ) (i : Input) : Result :=
  if i.projectFound = false then ⟨none, none, none, []⟩
  else if i.aiFails then
    ⟨some "ESTIMATION_READY", some defaultHours, some (defaultHours * hourlyRate),
     [⟨i.projectId, some "REQUIREMENTS_ANALYZED", "ESTIMATION_READY", "estimation_agent",
       "Estimation failed - defaults"⟩]⟩
  else
    let totalHoursValue := i.totalWithBuffer.getD (i.totalHours.getD 0)
    let quoted := i.quotedPriceAi.getD (totalHoursValue * hourlyRate)
    ⟨some "ESTIMATION_READY", some totalHoursValue, some quoted,
     [⟨i.projectId, some "REQUIREMENTS_ANALYZED", "ESTIMATION_READY", "estimation_agent",
       "Estimated"⟩]⟩

end EstimationAgent

namespace OfferGeneratorAgent

/-- OfferGeneratorAgent.process (src/app/agents/offer_generator_agent.py):
returns None when the project row is missing; otherwise both the success path
and the fallback path queue an offer, log ESTIMATION_READY to OFFER_SENT and
return OFFER_SENT. -/
def process (pid : Nat) (projectFound aiFails : Bool) : AgentResult :=
  if projectFound = false then ⟨none, []⟩
  else if aiFails then
    ⟨some "OFFER_SENT",
     [⟨pid, some "ESTIMATION_READY", "OFFER_SENT", "offer_generator_agent",
       "Offer gen failed - using fallback proposal"⟩]⟩
  else
    ⟨some "OFFER_SENT",
     [⟨pid, some "ESTIMATION_READY", "OFFER_SENT", "offer_generator_agent", "Offer generated"⟩]⟩

end OfferGeneratorAgent

namespace RequirementsAnalysisAgent

/-- MAX_CLARIFICATION_ROUNDS = 3 (src/app/agents/requirements_agent.py line 19). -/
def MAX_CLARIFICATION_ROUNDS : Nat := 3

/-- CLARITY_THRESHOLD = 6 (src/app/agents/requirements_agent.py line 28). -/
def CLARITY_THRESHOLD : ℚ := 6

/-- The inputs RequirementsAnalysisAgent.process branches on: whether the
project row was found, the clarification_round parsed from the stored
technical_spec JSON (0 when absent or unparsable), whether the AI call raised,
and otherwise the parsed clarity_score and clarifying_questions. -/
structure Input where
  projectId : Nat
  projectFound : Bool
  clarificationRound : Nat
  aiFails : Bool
  clarityScore : ℚ
  questions : List String

/-- Result of RequirementsAnalysisAgent.process: the returned state, the
clarification_round written back into technical_spec, and the transition-log
rows inserted. -/
structure Result where
  newState : Option String
  storedRound : Option Nat
  logged : List Transition
  deriving DecidableEq, Repr

/-- RequirementsAnalysisAgent.process (src/app/agents/requirements_agent.py
lines 30-188).  needs_clarification holds when clarity_score is below
CLARITY_THRESHOLD, the question list is non-empty, and clarification_round is
below MAX_CLARIFICATION_ROUNDS; then the agent sends questions, logs
CLASSIFIED to CLARIFICATION_NEEDED and returns CLARIFICATION_NEEDED.
Otherwise (and on an AI failure, via the fallback analysis doc) it logs
CLASSIFIED to REQUIREMENTS_ANALYZED and returns REQUIREMENTS_ANALYZED.  Both
paths store clarification_round + 1. -/
def process (i : Input) : Result :=
  if i.projectFound = false then ⟨none, none, []⟩
  else if i.aiFails then
    ⟨some "REQUIREMENTS_ANALYZED", some (i.clarificationRound + 1),
     [⟨i.projectId, some "CLASSIFIED", "REQUIREMENTS_ANALYZED", "requirements_analysis_agent",
       "Requirements analysis failed - using fallback"⟩]⟩
  else if i.clarityScore < CLARITY_THRESHOLD ∧ i.questions ≠ [] ∧
          i.clarificationRound < MAX_CLARIFICATION_ROUNDS then
    ⟨some "CLARIFICATION_NEEDED", some (i.clarificationRound + 1),
     [⟨i.projectId, some "CLASSIFIED", "CLARIFICATION_NEEDED", "requirements_analysis_agent",
       "Clarity low - waiting for client"⟩]⟩
  else
    ⟨some "REQUIREMENTS_ANALYZED", some (i.clarificationRound + 1),
     [⟨i.projectId, some "CLASSIFIED", "REQUIREMENTS_ANALYZED", "requirements_analysis_agent",
       "Requirements sufficient or max rounds reached"⟩]⟩

end RequirementsAnalysisAgent

namespace DialogueOrchestratorAgent

/-- The decision field of the AI reply in DialogueOrchestratorAgent._handle_message. -/
inductive Decision
  | agreed
  | negotiate
  | rejected
  | question
  | escalate
  deriving DecidableEq, Repr

/-- Outcome of one _handle_message AI call: the call raised, or it returned a
decision (an unrecognised decision string behaves like negotiate: the final
return None path). -/
inductive MessageOutcome
  | aiFailed
  | ok (d : Decision)
  deriving DecidableEq, Repr

/-- One row fetched by _get_unprocessed_messages. -/
structure Msg where
  id : Nat
  body : String
  deriving DecidableEq, Repr

/-- DialogueOrchestratorAgent._handle_message
(src/app/agents/dialogue_orchestrator_agent.py lines 54-151): the state
returned for one inbound message and the transition-log rows inserted.
AGREED and REJECTED log and transition; ESCALATE logs a NEGOTIATION to
NEGOTIATION row and returns None; NEGOTIATE and QUESTION return None; an AI
failure is caught, logged as an action, and returns None with no transition
row. -/
def handleMessage (pid : Nat) (o : MessageOutcome) : Option String × List Transition :=
  match o with
  | .aiFailed => (none, [])
  | .ok .agreed =>
      (some "AGREED",
       [⟨pid, some "NEGOTIATION", "AGREED", "dialogue_orchestrator_agent", "Client agreed"⟩])
  | .ok .rejected =>
      (some "REJECTED",
       [⟨pid, some "NEGOTIATION", "REJECTED", "dialogue_orchestrator_agent", "Client declined"⟩])
  | .ok .escalate =>
      (none,
       [⟨pid, some "NEGOTIATION", "NEGOTIATION", "dialogue_orchestrator_agent",
         "Max negotiation rounds reached - needs human review"⟩])
  | .ok .negotiate => (none, [])
  | .ok .question => (none, [])

/-- Result of DialogueOrchestratorAgent.process: the returned state, the ids
marked is_processed = TRUE during the loop, and the transition-log rows
inserted. -/
structure DlgResult where
  newState : Option String
  markedProcessed : List Nat
  logged : List Transition
  deriving DecidableEq, Repr

/-- DialogueOrchestratorAgent.process (lines 21-52): iterate the fetched
unprocessed inbound messages in order; each message is handled and then
immediately marked processed; when _handle_message returns a state the loop
returns it at once (later messages stay unhandled and unmarked); when the list
is exhausted return None.  The per-message AI outcome is the oracle. -/
def process (pid : Nat) (oracle : Nat → MessageOutcome) : List Msg → DlgResult
  | [] => ⟨none, [], []⟩
  | m :: rest =>
    let r := handleMessage pid (oracle m.id)
    match r.1 with
    | some s => ⟨some s, [m.id], r.2⟩
    | none =>
      let t := process pid oracle rest
      ⟨t.newState, m.id :: t.markedProcessed, r.2 ++ t.logged⟩

end DialogueOrchestratorAgent

/-- C2: once the stored clarification round counter has reached
MAX_CLARIFICATION_ROUNDS, one invocation of RequirementsAnalysisAgent.process
returns REQUIREMENTS_ANALYZED and never CLARIFICATION_NEEDED, whatever clarity
score and question list the AI returns, and also on an AI failure. -/
theorem clarification_loop_terminates (i : RequirementsAnalysisAgent.Input)
    (hfound : i.projectFound = true)
    (hround : RequirementsAnalysisAgent.MAX_CLARIFICATION_ROUNDS ≤ i.clarificationRound) :
    (RequirementsAnalysisAgent.process i).newState = some "REQUIREMENTS_ANALYZED" ∧
    (RequirementsAnalysisAgent.process i).newState ≠ some "CLARIFICATION_NEEDED" := by
  have hnotlt : ¬ i.clarificationRound < RequirementsAnalysisAgent.MAX_CLARIFICATION_ROUNDS :=
    Nat.not_lt.mpr hround
  cases haif : i.aiFails <;>
    simp [RequirementsAnalysisAgent.process, hfound, haif, hnotlt]

/-- Witness for C2: a project at round 3 with clarity score 0 and pending
questions still moves to REQUIREMENTS_ANALYZED. -/
theorem clarification_loop_terminates_witness :
    (RequirementsAnalysisAgent.process ⟨1, true, 3, false, 0, ["q1"]⟩).newState
        = some "REQUIREMENTS_ANALYZED" ∧
    (RequirementsAnalysisAgent.process ⟨1, true, 3, false, 0, ["q1"]⟩).newState
        ≠ some "CLARIFICATION_NEEDED" :=
  clarification_loop_terminates ⟨1, true, 3, false, 0, ["q1"]⟩ rfl (by decide)

/-- C8: when the estimation AI call fails, EstimationAgent.process still
returns ESTIMATION_READY, writes estimated_hours = 20.0 (the fixed default)
and quoted_price = 20.0 times the hourly rate, and logs the transition. -/
theorem estimation_failure_defaults (hourlyRate : ℚ) (i : EstimationAgent.Input)
    (hfound : i.projectFound = true) (hfail : i.aiFails = true) :
    EstimationAgent.process hourlyRate i =
      ⟨some "ESTIMATION_READY", some EstimationAgent.defaultHours,
       some (EstimationAgent.defaultHours * hourlyRate),
       [⟨i.projectId, some "REQUIREMENTS_ANALYZED", "ESTIMATION_READY", "estimation_agent",
         "Estimation failed - defaults"⟩]⟩ := by
  simp [EstimationAgent.process, hfound, hfail]

/-- Witness for C8: at the default hourly rate 50.0 the fallback writes
20 hours and a 1000 quoted price. -/
theorem estimation_failure_defaults_witness :
    EstimationAgent.process 50 ⟨7, true, true, none, none, none⟩ =
      ⟨some "ESTIMATION_READY", some 20, some 1000,
       [⟨7, some "REQUIREMENTS_ANALYZED", "ESTIMATION_READY", "estimation_agent",
         "Estimation failed - defaults"⟩]⟩ := by
  rw [estimation_failure_defaults 50 ⟨7, true, true, none, none, none⟩ rfl rfl]
  norm_num [EstimationAgent.defaultHours]

/-- C9: with no scam or illegal flag and a successful AI call, a scam score
exactly equal to the configured threshold is rejected (the comparison is
score >= threshold, an inclusive boundary), while a score strictly below the
threshold passes to ANALYZED. -/
theorem scam_threshold_inclusive (scamThreshold : ℚ) (i : ScamFilterAgent.Input)
    (hfail : i.aiFails = false) (hscam : i.isScam = false) (hill : i.isIllegal = false) :
    (i.scamScore = scamThreshold →
      (ScamFilterAgent.process scamThreshold i).newState = some "REJECTED") ∧
    (i.scamScore < scamThreshold →
      (ScamFilterAgent.process scamThreshold i).newState = some "ANALYZED") := by
  constructor
  · intro heq
    simp [ScamFilterAgent.process, hfail, hscam, hill, heq]
  · intro hlt
    have hnot : ¬ i.scamScore ≥ scamThreshold := not_le.mpr hlt
    simp [ScamFilterAgent.process, hfail, hscam, hill, hnot]

/-- Witness for C9: score 0.7 at threshold 0.7 is rejected. -/
theorem scam_threshold_inclusive_witness :
    (ScamFilterAgent.process (7/10) ⟨2, false, 7/10, false, false⟩).newState
      = some "REJECTED" :=
  (scam_threshold_inclusive (7/10) ⟨2, false, 7/10, false, false⟩ rfl rfl rfl).1 rfl

/-- C10: when the AI call fails for every fetched unprocessed inbound message,
DialogueOrchestratorAgent.process still marks every one of them processed (so
none is re-examined on a later poll), inserts no transition row, and returns
no transition. -/
theorem failed_messages_marked_processed (pid : Nat)
    (oracle : Nat → DialogueOrchestratorAgent.MessageOutcome)
    (msgs : List DialogueOrchestratorAgent.Msg)
    (hall : ∀ m ∈ msgs, oracle m.id = DialogueOrchestratorAgent.MessageOutcome.aiFailed) :
    DialogueOrchestratorAgent.process pid oracle msgs =
      ⟨none, msgs.map DialogueOrchestratorAgent.Msg.id, []⟩ := by
  induction msgs with
  | nil => rfl
  | cons m rest ih =>
    have hm : oracle m.id = DialogueOrchestratorAgent.MessageOutcome.aiFailed :=
      hall m (by simp)
    have hrest : ∀ x ∈ rest, oracle x.id = DialogueOrchestratorAgent.MessageOutcome.aiFailed :=
      fun x hx => hall x (by simp [hx])
    simp [DialogueOrchestratorAgent.process, hm, DialogueOrchestratorAgent.handleMessage,
      ih hrest]

/-- Witness for C10: two messages whose handling both fail are both marked
processed and the handler returns no transition. -/
theorem failed_messages_marked_processed_witness :
    DialogueOrchestratorAgent.process 3 (fun _ => DialogueOrchestratorAgent.MessageOutcome.aiFailed)
      [⟨10, "hello"⟩, ⟨11, "again"⟩] = ⟨none, [10, 11], []⟩ :=
  failed_messages_marked_processed 3 _ _ (fun _ _ => rfl)

namespace BaseAgent

/-- The shared field allow-list of BaseAgent.update_project_field and
BaseAgent.update_project_fields (src/app/agents/base.py lines 125-131 and
139-145, identical lists). -/
def allowedFields : List String :=
  ["title", "description", "category", "complexity", "tech_stack",
   "is_familiar_stack", "budget_min", "budget_max", "estimated_hours",
   "quoted_price", "final_price", "current_state", "is_scam", "is_illegal",
   "scam_score", "requirements_doc", "technical_spec", "rejection_reason",
   "client_id", "client_email"]

/-- The effect of UPDATE projects SET field = value on a row modelled as
column-name/value pairs. -/
def setField (row : List (String × String)) (field value : String) :
    List (String × String) :=
  row.map (fun p => if p.1 == field then (p.1, value) else p)

/-- BaseAgent.update_project_field (src/app/agents/base.py lines 123-135):
raise ValueError when the field is not in the allow-list, otherwise run the
single-column UPDATE.  The raise is the Except.error case. -/
def updateProjectField (row : List (String × String)) (field value : String) :
    Except String (List (String × String)) :=
  if field ∈ allowedFields then Except.ok (setField row field value)
  else Except.error ("Field " ++ field ++ " is not allowed for update")

/-- BaseAgent.update_project_fields (src/app/agents/base.py lines 137-157):
keep only the allow-listed pairs as SET clauses, return with no query when
none remain, and otherwise run one UPDATE with the retained clauses.  No
branch raises. -/
def updateProjectFields (row : List (String × String))
    (fields : List (String × String)) : Except String (List (String × String)) :=
  let setClauses := fields.filter (fun p => decide (p.1 ∈ allowedFields))
  if setClauses.isEmpty then Except.ok row
  else Except.ok (setClauses.foldl (fun r p => setField r p.1 p.2) row)

end BaseAgent

/-- Counterexample to C5: the multi-field helper does not reject a
non-allow-listed field.  Passing only the unknown field nasty_field returns
success with the row untouched (silently ignored), and mixing it with an
allow-listed field returns success and still applies the allow-listed part. -/
theorem multi_field_update_silently_ignores :
    BaseAgent.updateProjectFields [("title", "Old"), ("description", "d")]
        [("nasty_field", "evil")]
      = Except.ok [("title", "Old"), ("description", "d")] ∧
    BaseAgent.updateProjectFields [("title", "Old"), ("description", "d")]
        [("nasty_field", "evil"), ("title", "New")]
      = Except.ok [("title", "New"), ("description", "d")] := by
  constructor <;> rfl

/-- C5 as amended: the single-field helper rejects a non-allow-listed field
with an error and performs no mutation, and applies the update when the field
is allow-listed; the multi-field helper never errors and silently drops every
non-allow-listed pair (its result only depends on the allow-listed pairs). -/
theorem field_allowlist_enforcement (row : List (String × String))
    (field value : String) (fields : List (String × String)) :
    (field ∉ BaseAgent.allowedFields →
      BaseAgent.updateProjectField row field value
        = Except.error ("Field " ++ field ++ " is not allowed for update")) ∧
    (field ∈ BaseAgent.allowedFields →
      BaseAgent.updateProjectField row field value
        = Except.ok (BaseAgent.setField row field value)) ∧
    (∃ r, BaseAgent.updateProjectFields row fields = Except.ok r) ∧
    BaseAgent.updateProjectFields row fields
      = BaseAgent.updateProjectFields row
          (fields.filter (fun p => decide (p.1 ∈ BaseAgent.allowedFields))) := by
  refine ⟨?_, ?_, ?_, ?_⟩
  · intro h
    simp [BaseAgent.updateProjectField, h]
  · intro h
    simp [BaseAgent.updateProjectField, h]
  · unfold BaseAgent.updateProjectFields
    dsimp only
    split <;> exact ⟨_, rfl⟩
  · have hff : (fields.filter (fun p => decide (p.1 ∈ BaseAgent.allowedFields))).filter
        (fun p => decide (p.1 ∈ BaseAgent.allowedFields))
        = fields.filter (fun p => decide (p.1 ∈ BaseAgent.allowedFields)) := by
      rw [List.filter_filter]
      simp
    simp only [BaseAgent.updateProjectFields, hff]

/-- Witness for C5 as amended: updating the unknown field nasty_field through
the single-field helper is rejected with an error. -/
theorem field_allowlist_enforcement_witness :
    BaseAgent.updateProjectField [("title", "Old")] "nasty_field" "v"
      = Except.error ("Field " ++ "nasty_field" ++ " is not allowed for update") :=
  (field_allowlist_enforcement [("title", "Old")] "nasty_field" "v" []).1 (by decide)

namespace EmailSender

/-- One row of project_messages as read and written by
EmailSender.send_pending_messages. -/
structure OutMsg where
  id : Nat
  projectId : Nat
  direction : String
  recipientEmail : Option String
  subject : String
  body : String
  isProcessed : Bool
  deriving DecidableEq, Repr

/-- The WHERE clause: recipient_email IS NOT NULL AND not the empty string. -/
def hasValidRecipient (m : OutMsg) : Bool :=
  match m.recipientEmail with
  | none => false
  | some r => r != ""

/-- The fetch of send_pending_messages (src/app/email_sender.py lines 91-98):
unsent outbound messages with a valid recipient, ORDER BY created_at ASC
LIMIT 10.  The table list is kept in insertion order, which for this
append-only table is created_at ascending order. -/
def pendingQuery (table : List OutMsg) : List OutMsg :=
  (table.filter
    (fun m => m.direction == "outbound" && !m.isProcessed && hasValidRecipient m)).take 10

/-- Per-row effect of the send loop (lines 104-120): a row is set
is_processed = TRUE exactly when it is the fetched batch member of that id
and its SMTP delivery succeeded. -/
def sendStep (deliver : OutMsg → Bool) (batch : List OutMsg) (m : OutMsg) : OutMsg :=
  if batch.any (fun b => b.id == m.id && deliver b) then { m with isProcessed := true } else m

/-- EmailSender.send_pending_messages (src/app/email_sender.py lines 82-140)
as its overall effect on the table; deliver is the SMTP transport oracle. -/
def sendPendingMessages (deliver : OutMsg → Bool) (table : List OutMsg) : List OutMsg :=
  table.map (sendStep deliver (pendingQuery table))

/-- Every batch member is a table row. -/
theorem mem_table_of_mem_pendingQuery {table : List OutMsg} {b : OutMsg}
    (hb : b ∈ pendingQuery table) : b ∈ table :=
  List.filter_subset' _ (List.take_subset _ _ hb)

end EmailSender

/-- Counterexample to C3: an unsent outbound message whose recipient is the
empty string is not marked processed by a run of the drain — it is simply
never fetched — contradicting the claim that such messages are marked
processed immediately. -/
theorem no_recipient_not_marked_processed :
    EmailSender.sendPendingMessages (fun _ => true)
        [⟨1, 1, "outbound", some "", "Subject", "Body", false⟩]
      = [⟨1, 1, "outbound", some "", "Subject", "Body", false⟩] ∧
    (⟨1, 1, "outbound", some "", "Subject", "Body", false⟩ : EmailSender.OutMsg).isProcessed
      = false := by
  constructor <;> rfl

/-- C3 as amended: in one run of the drain, a message lacking a valid
recipient is never fetched and is left completely unchanged (no delivery
attempt, processed flag untouched), and every table row ends up processed
exactly when it already was or it was fetched in the batch and its delivery
succeeded.  Distinct rows carry distinct ids, as for a primary-key column. -/
theorem outbound_drain_marks_delivered (deliver : EmailSender.OutMsg → Bool)
    (table : List EmailSender.OutMsg)
    (hids : (table.map EmailSender.OutMsg.id).Nodup) :
    (∀ m ∈ table, EmailSender.hasValidRecipient m = false →
      m ∉ EmailSender.pendingQuery table ∧
      EmailSender.sendStep deliver (EmailSender.pendingQuery table) m = m) ∧
    (∀ m ∈ table,
      (EmailSender.sendStep deliver (EmailSender.pendingQuery table) m).isProcessed
        = (m.isProcessed ||
           (decide (m ∈ EmailSender.pendingQuery table) && deliver m))) ∧
    EmailSender.sendPendingMessages deliver table
      = table.map (EmailSender.sendStep deliver (EmailSender.pendingQuery table)) := by
  have hinj := List.inj_on_of_nodup_map hids
  have key : ∀ m ∈ table,
      ((EmailSender.pendingQuery table).any (fun b => b.id == m.id && deliver b) = true
        ↔ m ∈ EmailSender.pendingQuery table ∧ deliver m = true) := by
    intro m hm
    constructor
    · intro h
      rcases List.any_eq_true.mp h with ⟨b, hb, hbp⟩
      have hbp2 : b.id = m.id ∧ deliver b = true := by simpa using hbp
      rcases hbp2 with ⟨hid2, hdel⟩
      have hbm : b = m := hinj (EmailSender.mem_table_of_mem_pendingQuery hb) hm hid2
      exact ⟨hbm ▸ hb, hbm ▸ hdel⟩
    · rintro ⟨hmb, hdel⟩
      exact List.any_eq_true.mpr ⟨m, hmb, by simp [hdel]⟩
  refine ⟨?_, ?_, rfl⟩
  · intro m hm hvalid
    have hnotmem : m ∉ EmailSender.pendingQuery table := by
      intro hmem
      have hfilter := List.take_subset _ _ hmem
      have := (List.mem_filter.mp hfilter).2
      simp [hvalid] at this
    refine ⟨hnotmem, ?_⟩
    unfold EmailSender.sendStep
    have hany : (EmailSender.pendingQuery table).any (fun b => b.id == m.id && deliver b)
        = false := by
      cases hA : (EmailSender.pendingQuery table).any (fun b => b.id == m.id && deliver b)
      · rfl
      · exact absurd ((key m hm).mp hA).1 hnotmem
    simp [hany]
  · intro m hm
    unfold EmailSender.sendStep
    cases hA : (EmailSender.pendingQuery table).any (fun b => b.id == m.id && deliver b)
    · have hnot : ¬ (m ∈ EmailSender.pendingQuery table ∧ deliver m = true) := by
        intro hc
        rw [(key m hm).mpr hc] at hA
        cases hA
      by_cases hmb : m ∈ EmailSender.pendingQuery table
      · have hdel : deliver m = false := by
          cases hd : deliver m
          · rfl
          · exact absurd ⟨hmb, hd⟩ hnot
        simp [hmb, hdel]
      · simp [hmb]
    · rcases (key m hm).mp hA with ⟨hmb, hdel⟩
      simp [hmb, hdel]

/-- Witness for C3 as amended: with one valid-recipient and one
empty-recipient pending message and a transport that always succeeds, the
empty-recipient message is not fetched and left unchanged. -/
theorem outbound_drain_marks_delivered_witness :
    (⟨2, 1, "outbound", some "", "Offer2", "Hi2", false⟩ : EmailSender.OutMsg)
        ∉ EmailSender.pendingQuery
          [⟨1, 1, "outbound", some "client@example.com", "Offer", "Hi", false⟩,
           ⟨2, 1, "outbound", some "", "Offer2", "Hi2", false⟩] ∧
    EmailSender.sendStep (fun _ => true)
        (EmailSender.pendingQuery
          [⟨1, 1, "outbound", some "client@example.com", "Offer", "Hi", false⟩,
           ⟨2, 1, "outbound", some "", "Offer2", "Hi2", false⟩])
        ⟨2, 1, "outbound", some "", "Offer2", "Hi2", false⟩
      = ⟨2, 1, "outbound", some "", "Offer2", "Hi2", false⟩ :=
  ((outbound_drain_marks_delivered (fun _ => true)
      [⟨1, 1, "outbound", some "client@example.com", "Offer", "Hi", false⟩,
       ⟨2, 1, "outbound", some "", "Offer2", "Hi2", false⟩] (by decide)).1
    ⟨2, 1, "outbound", some "", "Offer2", "Hi2", false⟩ (by decide)) (by decide)

/-- One row of project_messages as written by the mail worker. -/
structure StoredMessage where
  projectId : Nat
  direction : String
  senderEmail : String
  subject : String
  body : String
  messageId : String
  inReplyTo : String
  isProcessed : Bool
  deriving DecidableEq, Repr

/-- The store slice for one project: its current_state, its project_messages
rows and its project_states transition-log rows. -/
structure Db where
  projectId : Nat
  currentState : String
  messages : List StoredMessage
  transitions : List Transition
  deriving DecidableEq, Repr

namespace MailWorker

/-- BLOCKED_SENDER_DOMAINS (src/background/mail_worker.py lines 29-32). -/
def BLOCKED_SENDER_DOMAINS : List String :=
  ["noreply", "no-reply", "mailer-daemon", "postmaster", "bounce", "donotreply"]

/-- The header fields of an inbound email that _handle_email and
_is_bulk_email read; a None header models a missing header (Python None). -/
structure EmailMessage where
  fromHeader : String
  subject : String
  body : String
  messageId : String
  inReplyTo : String
  listUnsubscribe : Option String
  precedence : Option String
  autoSubmitted : Option String
  deriving DecidableEq, Repr

/-- Python str.split with a one-character separator, on the character-list
view of a string. -/
def splitList (sep : Char) : List Char → List (List Char)
  | [] => [[]]
  | c :: rest =>
    let r := splitList sep rest
    if c == sep then [] :: r
    else
      match r with
      | [] => [[c]]
      | h :: t => (c :: h) :: t

/-- MailWorker._is_bulk_email (src/background/mail_worker.py lines 158-173):
a non-empty List-Unsubscribe header, a Precedence of bulk, list or junk, or a
non-empty Auto-Submitted header other than no.  Lower-casing is done on the
character-list view of the header values. -/
def isBulkEmail (m : EmailMessage) : Bool :=
  if (m.listUnsubscribe.getD "") != "" then true
  else if (["bulk", "list", "junk"].map String.data).contains
            ((m.precedence.getD "").data.map Char.toLower) then true
  else
    let autoSub := (m.autoSubmitted.getD "").data.map Char.toLower
    autoSub != [] && autoSub != "no".data

/-- client_email.split(at-sign)[0].lower() when the address contains an
at-sign, else the empty string (line 193), on the character-list view. -/
def senderLocal (clientEmail : String) : List Char :=
  if clientEmail.data.contains '@' then
    ((splitList '@' clientEmail.data).headD []).map Char.toLower
  else []

/-- client_email.split(at-sign)[-1].lower() when the address contains an
at-sign, else the empty string (line 194), on the character-list view. -/
def senderDomain (clientEmail : String) : List Char :=
  if clientEmail.data.contains '@' then
    ((splitList '@' clientEmail.data).getLastD []).map Char.toLower
  else []

/-- The four outcomes of _handle_email: digest parsing, skipped by a filter,
reply appended to an existing project, or a new project created. -/
inductive HandleResult
  | digestHandled
  | skipped
  | replyAdded (projectId : Nat)
  | projectCreated
  deriving DecidableEq, Repr

/-- MailWorker._handle_email decision path (lines 175-228).  isDigest is the
result of is_freelancer_digest, existingProject the result of
_find_existing_project, allowedSenderDomains is ALLOWED_SENDER_DOMAINS (empty
list = accept all).  The source assigns is_whitelisted = True and never
reassigns it, so the bulk-mail skip guarded by `not is_whitelisted` is kept
here exactly as written. -/
def handleEmail (allowedSenderDomains : List String) (isDigest : Bool)
    (existingProject : Option Nat) (clientEmail : String) (m : EmailMessage) :
    HandleResult :=
  if isDigest then .digestHandled
  else
    let localPart := senderLocal clientEmail
    let domain := senderDomain clientEmail
    if BLOCKED_SENDER_DOMAINS.any (fun b => decide (b.data <:+: localPart)) then .skipped
    else if allowedSenderDomains ≠ [] ∧
            ¬ allowedSenderDomains.any (fun d => decide (d.data <:+ domain)) = true then .skipped
    else
      let isWhitelisted := true
      if !isWhitelisted && isBulkEmail m then .skipped
      else
        match existingProject with
        | some pid => .replyAdded pid
        | none => .projectCreated

/-- MailWorker._add_message_to_project (lines 290-300): one inbound
project_messages row, is_processed = FALSE. -/
def addMessageToProject (db : Db) (sender subject body messageId inReplyTo : String) : Db :=
  { db with messages := db.messages ++
      [⟨db.projectId, "inbound", sender, subject, body, messageId, inReplyTo, false⟩] }

/-- MailWorker._check_offer_response (lines 302-328): UPDATE guarded by
WHERE current_state = OFFER_SENT; the transition-log row is inserted only when
the guarded update hit a row (rowcount > 0). -/
def checkOfferResponse (db : Db) : Db :=
  if db.currentState = "OFFER_SENT" then
    { db with currentState := "NEGOTIATION",
              transitions := db.transitions ++
                [⟨db.projectId, some "OFFER_SENT", "NEGOTIATION", "mail_worker",
                  "Client replied to offer"⟩] }
  else db

/-- MailWorker._check_clarification_response (lines 330-356): the same
guarded-update pattern for CLARIFICATION_NEEDED back to CLASSIFIED. -/
def checkClarificationResponse (db : Db) : Db :=
  if db.currentState = "CLARIFICATION_NEEDED" then
    { db with currentState := "CLASSIFIED",
              transitions := db.transitions ++
                [⟨db.projectId, some "CLARIFICATION_NEEDED", "CLASSIFIED", "mail_worker",
                  "Client replied to clarification questions - re-analysing"⟩] }
  else db

/-- The reply branch of MailWorker._handle_email (lines 214-224): append the
inbound message, then run the offer-response check, then the
clarification-response check. -/
def handleReplyToExisting (db : Db) (sender subject body messageId inReplyTo : String) : Db :=
  checkClarificationResponse
    (checkOfferResponse (addMessageToProject db sender subject body messageId inReplyTo))

end MailWorker

namespace FreelancerInbox

/-- FreelancerInbox._handle_client_reply (src/app/freelancer_inbox.py lines
469-527): read the current state; OFFER_SENT moves to NEGOTIATION and
CLARIFICATION_NEEDED back to CLASSIFIED, each with one transition-log row; any
other state is left unchanged.  The read and the update are adjacent
statements of one cursor block, modelled as one step. -/
def handleClientReply (db : Db) : Db :=
  if db.currentState = "OFFER_SENT" then
    { db with currentState := "NEGOTIATION",
              transitions := db.transitions ++
                [⟨db.projectId, some "OFFER_SENT", "NEGOTIATION", "freelancer_inbox",
                  "Client replied on freelancer.com"⟩] }
  else if db.currentState = "CLARIFICATION_NEEDED" then
    { db with currentState := "CLASSIFIED",
              transitions := db.transitions ++
                [⟨db.projectId, some "CLARIFICATION_NEEDED", "CLASSIFIED", "freelancer_inbox",
                  "Client replied to clarification on freelancer.com"⟩] }
  else db

end FreelancerInbox

namespace Routes

/-- change_project_state (src/app/routes.py lines 384-413): unconditional
UPDATE of current_state followed by one transition-log insert with a NULL
from_state. -/
def changeProjectState (db : Db) (newState : String) : Db :=
  { db with currentState := newState,
            transitions := db.transitions ++
              [⟨db.projectId, none, newState, "admin", "Manual state change"⟩] }

/-- reprocess_project (src/app/routes.py lines 848-874): when a target state
is supplied, UPDATE current_state and insert one transition-log row recording
the previous state; without a target nothing is written. -/
def reprocessProject (db : Db) (targetState : Option String) : Db :=
  match targetState with
  | some t =>
      { db with currentState := t,
                transitions := db.transitions ++
                  [⟨db.projectId, some db.currentState, t, "admin", "Manual state change"⟩] }
  | none => db

end Routes

/-- One engine dispatch: which of the six agents of WorkflowEngine.agents
runs, with its oracle inputs. -/
inductive AgentCall
  | emailParser (pid : Nat) (aiFails : Bool)
  | scamFilter (scamThreshold : ℚ) (i : ScamFilterAgent.Input)
  | classification (pid : Nat) (aiFails : Bool)
  | estimation (hourlyRate : ℚ) (i : EstimationAgent.Input)
  | offerGenerator (pid : Nat) (projectFound aiFails : Bool)
  | dialogueOrchestrator (pid : Nat)
      (oracle : Nat → DialogueOrchestratorAgent.MessageOutcome)
      (msgs : List DialogueOrchestratorAgent.Msg)

/-- Run the dispatched agent and project its result onto the returned state
and the transition-log rows it inserted. -/
def runAgent : AgentCall → AgentResult
  | .emailParser pid f => EmailParserAgent.process pid f
  | .scamFilter th i => ScamFilterAgent.process th i
  | .classification pid f => ClassificationAgent.process pid f
  | .estimation rate i =>
      ⟨(EstimationAgent.process rate i).newState, (EstimationAgent.process rate i).logged⟩
  | .offerGenerator pid found f => OfferGeneratorAgent.process pid found f
  | .dialogueOrchestrator pid oracle msgs =>
      ⟨(DialogueOrchestratorAgent.process pid oracle msgs).newState,
       (DialogueOrchestratorAgent.process pid oracle msgs).logged⟩

/-- WorkflowEngine._process_single_project (src/app/workflow/engine.py lines
111-154): the agent runs (inserting its transition-log rows during process),
then the engine persists current_state when the returned state is non-null
and differs from the current one. -/
def processSingleProject (db : Db) (c : AgentCall) : Db :=
  match (runAgent c).newState with
  | some ns =>
      if ns ≠ db.currentState then
        { db with currentState := ns, transitions := db.transitions ++ (runAgent c).logged }
      else { db with transitions := db.transitions ++ (runAgent c).logged }
  | none => { db with transitions := db.transitions ++ (runAgent c).logged }

/-- Every operation in the repository that writes projects.current_state:
an engine tick, the two guarded mail-worker reply checks and the whole
mail-worker reply branch, the freelancer-inbox reply handler, and the two
admin routes. -/
inductive StateChangeOp
  | engineTick (c : AgentCall)
  | mailOfferResponse
  | mailClarificationResponse
  | mailHandleReply (sender subject body messageId inReplyTo : String)
  | flClientReply
  | adminChangeState (newState : String)
  | adminReprocess (targetState : Option String)

/-- Apply one state-writing operation to the store slice of one project. -/
def applyOp (db : Db) : StateChangeOp → Db
  | .engineTick c => processSingleProject db c
  | .mailOfferResponse => MailWorker.checkOfferResponse db
  | .mailClarificationResponse => MailWorker.checkClarificationResponse db
  | .mailHandleReply s subj b mid irt => MailWorker.handleReplyToExisting db s subj b mid irt
  | .flClientReply => FreelancerInbox.handleClientReply db
  | .adminChangeState ns => Routes.changeProjectState db ns
  | .adminReprocess t => Routes.reprocessProject db t

/-- A _handle_message call that returns a state has inserted a transition row. -/
theorem handleMessage_logged_ne_nil (pid : Nat)
    (o : DialogueOrchestratorAgent.MessageOutcome) (s : String)
    (h : (DialogueOrchestratorAgent.handleMessage pid o).1 = some s) :
    (DialogueOrchestratorAgent.handleMessage pid o).2 ≠ [] := by
  cases o with
  | aiFailed => simp [DialogueOrchestratorAgent.handleMessage] at h
  | ok d => cases d <;> simp_all [DialogueOrchestratorAgent.handleMessage]

/-- A dialogue process run that returns a state has inserted a transition row. -/
theorem dlgProcess_logged_ne_nil (pid : Nat)
    (oracle : Nat → DialogueOrchestratorAgent.MessageOutcome) :
    ∀ (msgs : List DialogueOrchestratorAgent.Msg) (s : String),
      (DialogueOrchestratorAgent.process pid oracle msgs).newState = some s →
      (DialogueOrchestratorAgent.process pid oracle msgs).logged ≠ [] := by
  intro msgs
  induction msgs with
  | nil =>
    intro s h
    simp [DialogueOrchestratorAgent.process] at h
  | cons m rest ih =>
    intro s h
    simp only [DialogueOrchestratorAgent.process] at h ⊢
    cases hh : (DialogueOrchestratorAgent.handleMessage pid (oracle m.id)).1 with
    | some s0 =>
      simp only [hh] at h ⊢
      exact handleMessage_logged_ne_nil pid (oracle m.id) s0 hh
    | none =>
      simp only [hh] at h ⊢
      intro hap
      exact ih s h (List.append_eq_nil.mp hap).2

/-- Every engine-dispatched agent that returns a state has inserted at least
one transition row during its process call. -/
theorem runAgent_logged_ne_nil (c : AgentCall) (s : String)
    (h : (runAgent c).newState = some s) : (runAgent c).logged ≠ [] := by
  cases c with
  | emailParser pid f =>
    cases f <;> simp [runAgent, EmailParserAgent.process]
  | scamFilter th i =>
    simp only [runAgent, ScamFilterAgent.process]
    split
    · simp
    · split <;> simp
  | classification pid f =>
    cases f <;> simp [runAgent, ClassificationAgent.process]
  | estimation rate i =>
    by_cases hpf : i.projectFound = false
    · simp [runAgent, EstimationAgent.process, hpf] at h
    · by_cases haf : i.aiFails <;>
        simp [runAgent, EstimationAgent.process, hpf, haf]
  | offerGenerator pid found f =>
    by_cases hpf : found = false
    · simp [runAgent, OfferGeneratorAgent.process, hpf] at h
    · by_cases haf : f = true <;>
        simp [runAgent, OfferGeneratorAgent.process, hpf, haf]
  | dialogueOrchestrator pid oracle msgs =>
    simp only [runAgent] at h ⊢
    exact dlgProcess_logged_ne_nil pid oracle msgs s h

/-- C7: every operation that changes a project current_state value appends at
least one row to the project_states transition log in the same logical
operation — the engine tick through the transition row its agent inserted
while processing, the adapter force-transitions and the admin routes through
their own paired inserts. -/
theorem state_change_always_logged (db : Db) (op : StateChangeOp)
    (h : (applyOp db op).currentState ≠ db.currentState) :
    db.transitions.length < (applyOp db op).transitions.length := by
  cases op with
  | engineTick c =>
    simp only [applyOp, processSingleProject] at h ⊢
    cases hs : (runAgent c).newState with
    | none => simp [hs] at h
    | some ns =>
      simp only [hs] at h ⊢
      by_cases hne : ns = db.currentState
      · simp [hne] at h
      · have hlog := runAgent_logged_ne_nil c ns hs
        have hpos := List.length_pos.mpr hlog
        simp only [ne_eq, hne, not_false_eq_true, if_true, List.length_append]
        omega
  | mailOfferResponse =>
    simp only [applyOp, MailWorker.checkOfferResponse] at h ⊢
    by_cases hst : db.currentState = "OFFER_SENT"
    · simp [hst, List.length_append]
    · simp [hst] at h
  | mailClarificationResponse =>
    simp only [applyOp, MailWorker.checkClarificationResponse] at h ⊢
    by_cases hst : db.currentState = "CLARIFICATION_NEEDED"
    · simp [hst, List.length_append]
    · simp [hst] at h
  | mailHandleReply s subj b mid irt =>
    simp only [applyOp, MailWorker.handleReplyToExisting, MailWorker.addMessageToProject,
      MailWorker.checkOfferResponse, MailWorker.checkClarificationResponse] at h ⊢
    by_cases h1 : db.currentState = "OFFER_SENT"
    · simp [h1, List.length_append]
    · by_cases h2 : db.currentState = "CLARIFICATION_NEEDED"
      · simp [h1, h2, List.length_append]
      · simp [h1, h2] at h
  | flClientReply =>
    simp only [applyOp, FreelancerInbox.handleClientReply] at h ⊢
    by_cases h1 : db.currentState = "OFFER_SENT"
    · simp [h1, List.length_append]
    · by_cases h2 : db.currentState = "CLARIFICATION_NEEDED"
      · simp [h1, h2, List.length_append]
      · simp [h1, h2] at h
  | adminChangeState ns =>
    simp [applyOp, Routes.changeProjectState, List.length_append]
  | adminReprocess t =>
    cases t with
    | none => simp [applyOp, Routes.reprocessProject] at h
    | some t0 => simp [applyOp, Routes.reprocessProject, List.length_append]

/-- Witness for C7: a mail-worker offer-response check on a project in
OFFER_SENT changes the state and grows the transition log. -/
theorem state_change_always_logged_witness :
    (⟨5, "OFFER_SENT", [], []⟩ : Db).transitions.length <
      (applyOp ⟨5, "OFFER_SENT", [], []⟩ StateChangeOp.mailOfferResponse).transitions.length :=
  state_change_always_logged ⟨5, "OFFER_SENT", [], []⟩ .mailOfferResponse (by decide)

/-- C4: an inbound email that is no digest and no reply, whose headers mark
it as bulk mail (here a List-Unsubscribe header), still creates a new
project: _is_bulk_email classifies it as bulk, yet _handle_email falls
through to project creation because the bulk skip is guarded by
`not is_whitelisted` and is_whitelisted is the constant True. -/
theorem bulk_email_still_creates_project :
    MailWorker.isBulkEmail
        ⟨"Acme News <news@example.com>", "Weekly deals", "Buy now",
         "<id-1@example.com>", "", some "<mailto:unsub@example.com>", none, none⟩ = true ∧
    MailWorker.handleEmail [] false none "news@example.com"
        ⟨"Acme News <news@example.com>", "Weekly deals", "Buy now",
         "<id-1@example.com>", "", some "<mailto:unsub@example.com>", none, none⟩
      = MailWorker.HandleResult.projectCreated := by
  constructor
  · rfl
  · decide

/-- C6: a correlated client reply for a project in OFFER_SENT appends exactly
one inbound message, sets current_state to NEGOTIATION and appends exactly one
transition-log row; the state update is the guarded UPDATE of
_check_offer_response, which fires only on a project whose state at update
time is OFFER_SENT; a reply for a project in neither OFFER_SENT nor
CLARIFICATION_NEEDED leaves state and transition log unchanged.  The
freelancer-inbox reply handler obeys the same state rules. -/
theorem offer_reply_transition :
    (∀ (db : Db) (sender subject body messageId inReplyTo : String),
      db.currentState = "OFFER_SENT" →
        MailWorker.handleReplyToExisting db sender subject body messageId inReplyTo =
          { db with
              currentState := "NEGOTIATION",
              messages := db.messages ++
                [⟨db.projectId, "inbound", sender, subject, body, messageId, inReplyTo, false⟩],
              transitions := db.transitions ++
                [⟨db.projectId, some "OFFER_SENT", "NEGOTIATION", "mail_worker",
                  "Client replied to offer"⟩] }) ∧
    (∀ db : Db, (MailWorker.checkOfferResponse db).currentState ≠ db.currentState →
      db.currentState = "OFFER_SENT") ∧
    (∀ (db : Db) (sender subject body messageId inReplyTo : String),
      db.currentState ≠ "OFFER_SENT" → db.currentState ≠ "CLARIFICATION_NEEDED" →
        (MailWorker.handleReplyToExisting db sender subject body messageId inReplyTo).currentState
            = db.currentState ∧
        (MailWorker.handleReplyToExisting db sender subject body messageId inReplyTo).transitions
            = db.transitions) ∧
    (∀ db : Db, db.currentState = "OFFER_SENT" →
      FreelancerInbox.handleClientReply db =
        { db with
            currentState := "NEGOTIATION",
            transitions := db.transitions ++
              [⟨db.projectId, some "OFFER_SENT", "NEGOTIATION", "freelancer_inbox",
                "Client replied on freelancer.com"⟩] }) ∧
    (∀ db : Db, db.currentState ≠ "OFFER_SENT" → db.currentState ≠ "CLARIFICATION_NEEDED" →
      FreelancerInbox.handleClientReply db = db) := by
  refine ⟨?_, ?_, ?_, ?_, ?_⟩
  · intro db sender subject body messageId inReplyTo hst
    simp [MailWorker.handleReplyToExisting, MailWorker.addMessageToProject,
      MailWorker.checkOfferResponse, MailWorker.checkClarificationResponse, hst]
  · intro db h
    by_cases hst : db.currentState = "OFFER_SENT"
    · exact hst
    · simp [MailWorker.checkOfferResponse, hst] at h
  · intro db sender subject body messageId inReplyTo h1 h2
    simp [MailWorker.handleReplyToExisting, MailWorker.addMessageToProject,
      MailWorker.checkOfferResponse, MailWorker.checkClarificationResponse, h1, h2]
  · intro db hst
    simp [FreelancerInbox.handleClientReply, hst]
  · intro db h1 h2
    simp [FreelancerInbox.handleClientReply, h1, h2]

/-- Witness for C6: a concrete project in OFFER_SENT receiving a reply gets
one inbound message, NEGOTIATION, and one transition-log row. -/
theorem offer_reply_transition_witness :
    MailWorker.handleReplyToExisting ⟨9, "OFFER_SENT", [], []⟩
        "client@x.com" "Re: offer" "sounds good" "<m2>" "<m1>" =
      ⟨9, "NEGOTIATION",
       [⟨9, "inbound", "client@x.com", "Re: offer", "sounds good", "<m2>", "<m1>", false⟩],
       [⟨9, some "OFFER_SENT", "NEGOTIATION", "mail_worker", "Client replied to offer"⟩]⟩ := by
  have h := offer_reply_transition.1 ⟨9, "OFFER_SENT", [], []⟩
    "client@x.com" "Re: offer" "sounds good" "<m2>" "<m1>" rfl
  simpa using h

end FreelanceOperator
